import Mathlib

/-!
Verification of the staleness-aware FX refresh cache of `novosta/partsnbits`
(`src/fx-banco/src/index.js` and its variant `src/unnamed/part_001`).

Modelling conventions (shallow embedding of the JavaScript source):

* JS numbers are modelled as exact rationals `ℚ`.  `Number(s)` on the decimal
  numeral strings produced by the upstream API ("18.3452", "NaN", "-1", …) is
  modelled by `jsNumber`, which returns `none` exactly when the JS value would
  be non-finite (`NaN` / `±Infinity`); exotic numeral forms the source never
  receives (hexadecimal, exponent notation) are out of scope and map to `none`.
* The host `Date` object: the source builds `new Date(fecha ++ "T18:00:00Z")`
  and calls `.toISOString()`.  We model the ISO calendar-date form
  `YYYY-MM-DD` (the form the Banxico fecha takes after normalisation); any
  other string yields an Invalid Date, whose `.toISOString()` throws a
  `RangeError` ("Invalid time value").  A parsed date is kept as an `IsoDate`
  record; `toISOStr` renders the exact `.toISOString()` output and `epochMs`
  its `Date.parse` value (the code stores the ISO string and re-parses it;
  since `Date.parse` inverts `.toISOString`, storing the calendar date and
  deriving both is equivalent).
* The mutable module-level `cache` variable is threaded explicitly: every
  handler takes the cache before the call and returns the cache after it.
* `Date.now()` is a parameter `now : Int` (epoch milliseconds).  The quote
  handler reads the clock twice in quick succession; both reads are modelled
  as the same instant.
* A thrown exception is an `Except.error` / `FxReply.err`; the express route
  wrappers catch it and answer `502 {error: message}`.
-/

/-- Digit characters to the natural number they denote (most significant first). -/
def digitsToNat (cs : List Char) : Nat :=
  cs.foldl (fun a c => a * 10 + (c.toNat - 48)) 0

/-- Every character of the list is a decimal digit. -/
def allDigits (cs : List Char) : Bool :=
  cs.all Char.isDigit

/-- Whitespace characters the JS `Number` conversion strips. -/
def jsWhitespace (c : Char) : Bool :=
  c = ' ' ∨ c = '\t' ∨ c = '\n' ∨ c = '\r'

/-- Strip leading and trailing whitespace. -/
def trimChars (cs : List Char) : List Char :=
  ((cs.dropWhile jsWhitespace).reverse.dropWhile jsWhitespace).reverse

/-- Split a character list at every occurrence of the separator, keeping empty
pieces, exactly as the JS `String.prototype.split` with a one-character
separator does (`"".split` gives `[""]`). -/
def splitChar (sep : Char) : List Char → List (List Char)
  | [] => [[]]
  | c :: cs =>
    let r := splitChar sep cs
    if c = sep then [] :: r
    else
      match r with
      | [] => [[c]]
      | h :: t => (c :: h) :: t

/-- Unsigned JS decimal numeral (`123`, `123.`, `123.45`, `.45`), returned as
numerator and power-of-ten denominator, so `(n, d)` denotes `n / d`. -/
def parseUnsignedChars (cs : List Char) : Option (Nat × Nat) :=
  match splitChar '.' cs with
  | [ip] =>
    if ip ≠ [] ∧ allDigits ip then some (digitsToNat ip, 1) else none
  | [ip, fp] =>
    if (ip ≠ [] ∨ fp ≠ []) ∧ allDigits ip ∧ allDigits fp then
      some (digitsToNat ip * 10 ^ fp.length + digitsToNat fp, 10 ^ fp.length)
    else none
  | _ => none

/-- Signed JS decimal numeral, as an exact rational. -/
def parseDecimalChars : List Char → Option ℚ
  | '-' :: rest => (parseUnsignedChars rest).map (fun p => mkRat (-(p.1 : ℤ)) p.2)
  | '+' :: rest => (parseUnsignedChars rest).map (fun p => mkRat p.1 p.2)
  | cs => (parseUnsignedChars cs).map (fun p => mkRat p.1 p.2)

/-- Models `Number(x)` on an optional string (`undefined` gives `NaN`):
`none` stands for a non-finite result (`NaN` or `±Infinity`), so
`jsNumber v = none ↔ ¬ Number.isFinite (Number (v))`.  A whitespace-only
string converts to `0`; a string that is not a decimal numeral to `NaN`. -/
def jsNumber : Option String → Option ℚ
  | none => none
  | some s =>
    let t := trimChars s.toList
    if t = [] then some 0 else parseDecimalChars t

/-- Models `Number(mid.toFixed(4))`: ECMA `toFixed` renders the absolute
value rounded to four fractional digits (on a tie it picks the larger
integer, i.e. rounds half up) and reattaches the sign; `Number` reparses the
string exactly.  On the normalised numerator and positive denominator of `q`
the magnitude is `⌊|q| * 10000 + 1/2⌋`. -/
def round4 (q : ℚ) : ℚ :=
  if q.num < 0 then
    mkRat (-(Int.fdiv (-20000 * q.num + q.den) (2 * q.den))) 10000
  else
    mkRat (Int.fdiv (20000 * q.num + q.den) (2 * q.den)) 10000

/-- Calendar date extracted from a `YYYY-MM-DD` string. -/
structure IsoDate where
  year : Nat
  month : Nat
  day : Nat
deriving DecidableEq, Repr

/-- Gregorian leap-year test. -/
def isLeap (y : Nat) : Bool :=
  (y % 4 = 0 ∧ y % 100 ≠ 0) ∨ y % 400 = 0

/-- Number of days of month `m` in year `y`. -/
def daysInMonth (y m : Nat) : Nat :=
  if m = 2 then (if isLeap y then 29 else 28)
  else if m = 4 ∨ m = 6 ∨ m = 9 ∨ m = 11 then 30
  else 31

/-- Parse a strict `YYYY-MM-DD` string into a valid calendar date, as the host
`Date` constructor does with the ISO date-time `YYYY-MM-DDT18:00:00Z`;
`none` models an Invalid Date. -/
def parseYMD (s : String) : Option IsoDate :=
  match s.toList with
  | [y1, y2, y3, y4, h1, m1, m2, h2, d1, d2] =>
    if h1 = '-' ∧ h2 = '-' ∧ allDigits [y1, y2, y3, y4, m1, m2, d1, d2] then
      let y := digitsToNat [y1, y2, y3, y4]
      let mo := digitsToNat [m1, m2]
      let da := digitsToNat [d1, d2]
      if 1 ≤ mo ∧ mo ≤ 12 ∧ 1 ≤ da ∧ da ≤ daysInMonth y mo then
        some ⟨y, mo, da⟩
      else none
    else none
  | _ => none

/-- Days since 1970-01-01 of a civil date (standard era-based algorithm). -/
def daysFromCivil (dt : IsoDate) : Int :=
  let y : Int := if dt.month ≤ 2 then (dt.year : Int) - 1 else (dt.year : Int)
  let m : Int := dt.month
  let d : Int := dt.day
  let era : Int := Int.fdiv y 400
  let yoe : Int := y - era * 400
  let mp : Int := Int.emod (m + 9) 12
  let doy : Int := Int.fdiv (153 * mp + 2) 5 + d - 1
  let doe : Int := yoe * 365 + Int.fdiv yoe 4 - Int.fdiv yoe 100 + doy
  era * 146097 + doe - 719468

/-- Epoch milliseconds of `Date.parse (toISOStr dt)`: the civil date at the
fixed 18:00:00 UTC time of day the source attaches. -/
def epochMs (dt : IsoDate) : Int :=
  daysFromCivil dt * 86400000 + 64800000

/-- Left-pad to two digits. -/
def pad2 (n : Nat) : String :=
  if n < 10 then ("0") ++ toString n else toString n

/-- Left-pad to four digits. -/
def pad4 (n : Nat) : String :=
  if n < 10 then ("000") ++ toString n
  else if n < 100 then ("00") ++ toString n
  else if n < 1000 then ("0") ++ toString n
  else toString n

/-- Exact `.toISOString()` output of the stored instant. -/
def toISOStr (dt : IsoDate) : String :=
  pad4 dt.year ++ "-" ++ pad2 dt.month ++ "-" ++ pad2 dt.day ++ "T18:00:00.000Z"

/-- One data point of the upstream JSON: `{dato, fecha}`; either field may be
absent.  The source reads both as strings. -/
structure Punto where
  dato : Option String
  fecha : Option String
deriving DecidableEq

/-- One series of the upstream JSON: `{datos: [...]}`; an absent `datos` array
is observationally the empty list under the `?.[0]` access the source uses. -/
structure Serie where
  datos : List Punto
deriving DecidableEq

/-- The `bmx` object of the upstream JSON. -/
structure Bmx where
  series : List Serie
deriving DecidableEq

/-- The parsed upstream JSON body (only the parts the source reads). -/
structure Payload where
  bmx : Option Bmx
deriving DecidableEq

/-- Models `j?.bmx?.series?.[0]?.datos?.[0]` (optional chaining collapses every
missing step to `undefined`). -/
def Payload.punto (j : Payload) : Option Punto :=
  (j.bmx.bind (fun b => b.series.head?)).bind (fun s => s.datos.head?)

/-- The `punto?.dato` field the rate is extracted from. -/
def extractDato (j : Payload) : Option String :=
  j.punto.bind Punto.dato

/-- The `punto?.fecha` field the date is extracted from. -/
def extractFecha (j : Payload) : Option String :=
  j.punto.bind Punto.fecha

/-- The upstream HTTP response: a status code and, when the body was valid
JSON, the parsed payload (`none` models a body `r.json()` rejects on). -/
structure Response where
  status : Nat
  body : Option Payload
deriving DecidableEq

/-- Models node-fetch `r.ok`: status in the inclusive range 200–299. -/
def Response.ok (r : Response) : Bool :=
  200 ≤ r.status ∧ r.status < 300

/-- Exceptions `fetchBanxico` can throw: the explicit
`BANXICO_UPSTREAM_<status>` and `BANXICO_PARSE_ERROR` errors, the `RangeError`
thrown by `.toISOString()` on an Invalid Date, and a JSON-decoding rejection
of `r.json()`. -/
inductive FetchError where
  | upstream (status : Nat)
  | parseError
  | invalidTime
  | jsonError
deriving DecidableEq

/-- The `e.message` the route handler turns into the 502 body via
`String(e.message || e)`. -/
def errMessage : FetchError → String
  | .upstream s => "BANXICO_UPSTREAM_" ++ toString s
  | .parseError => "BANXICO_PARSE_ERROR"
  | .invalidTime => "Invalid time value"
  | .jsonError => "invalid json response body"

/-- The module-level mutable `cache` record.  The source keeps `asOf` as the
`.toISOString()` string; we keep the parsed `IsoDate` (see the header note)
and derive the string (`toISOStr`) and the `Date.parse` value (`epochMs`). -/
structure Cache where
  asOf : Option IsoDate
  usd_mxn_mid : Option ℚ
  stale : Bool
  raw : Option Payload
deriving DecidableEq

/-- The initial value `{asOf: null, usd_mxn_mid: null, stale: true, raw: null}`. -/
def initialCache : Cache :=
  { asOf := none, usd_mxn_mid := none, stale := true, raw := none }

deriving instance DecidableEq for Except

/-- Pure result of `fetchBanxico` in `src/fx-banco/src/index.js`: the thrown
error, or the new cache record it assigns and returns. -/
def fetchResult (r : Response) : Except FetchError Cache :=
  if r.ok = false then .error (.upstream r.status)
  else
    match r.body with
    | none => .error .jsonError
    | some j =>
      let mid := jsNumber (extractDato j)
      let fecha := extractFecha j
      match mid with
      | none => .error .parseError
      | some m =>
        match fecha with
        | none => .error .parseError
        | some f =>
          if f = "" then .error .parseError
          else
            match parseYMD f with
            | none => .error .invalidTime
            | some dt =>
              .ok { asOf := some dt, usd_mxn_mid := some (round4 m),
                    stale := false, raw := some j }

/-- Rendering of a possibly-undefined part inside a JS template literal. -/
def jsTemplate : Option String → String
  | none => "undefined"
  | some s => s

/-- Models `parseBanxicoDate` of `src/unnamed/part_001`: a falsy or slash-free
argument is returned as is; otherwise the string is split on `/` and
reassembled as `year-month-day` from its first three pieces. -/
def parseBanxicoDate : Option String → Option String
  | none => none
  | some d =>
    if d = "" ∨ (d.toList.contains '/') = false then some d
    else
      let parts := (splitChar '/' d.toList).map List.asString
      some (jsTemplate (parts.get? 2) ++ "-" ++ jsTemplate (parts.get? 1) ++
            "-" ++ jsTemplate (parts.get? 0))

/-- Pure result of `fetchBanxico` in `src/unnamed/part_001`: identical to
`fetchResult` except that the fecha is first rewritten by
`parseBanxicoDate`. -/
def fetchResultP1 (r : Response) : Except FetchError Cache :=
  if r.ok = false then .error (.upstream r.status)
  else
    match r.body with
    | none => .error .jsonError
    | some j =>
      let mid := jsNumber (extractDato j)
      let fecha := parseBanxicoDate (extractFecha j)
      match mid with
      | none => .error .parseError
      | some m =>
        match fecha with
        | none => .error .parseError
        | some f =>
          if f = "" then .error .parseError
          else
            match parseYMD f with
            | none => .error .invalidTime
            | some dt =>
              .ok { asOf := some dt, usd_mxn_mid := some (round4 m),
                    stale := false, raw := some j }

/-- State-passing `fetchBanxico` (`src/fx-banco/src/index.js`): on success the
global cache is replaced by the new record, on a thrown error it is left as
it was. -/
def fetchBanxico (r : Response) (c : Cache) : Except FetchError Cache × Cache :=
  match fetchResult r with
  | .error e => (.error e, c)
  | .ok c2 => (.ok c2, c2)

/-- State-passing `fetchBanxico` of `src/unnamed/part_001`. -/
def fetchBanxicoP1 (r : Response) (c : Cache) : Except FetchError Cache × Cache :=
  match fetchResultP1 r with
  | .error e => (.error e, c)
  | .ok c2 => (.ok c2, c2)

/-- Models `isStale(asOfISO)`: true when no date is held, otherwise the strict
comparison `(now - asOfMs) > 24 * 60 * 60 * 1000`. -/
def isStale (asOf : Option IsoDate) (now : Int) : Bool :=
  match asOf with
  | none => true
  | some dt => decide (now - epochMs dt > 24 * 60 * 60 * 1000)

/-- Models the handler-local
`needsRefresh = !cache.asOf || (Date.now() - Date.parse(cache.asOf)) > MAX_CACHE_MS`. -/
def needsRefresh (c : Cache) (now : Int) (maxCacheMs : Int) : Bool :=
  match c.asOf with
  | none => true
  | some dt => decide (now - epochMs dt > maxCacheMs)

/-- Environment-derived configuration read by the handlers. -/
structure Config where
  maxCacheMs : Int
  buySpreadBps : Int
  sellSpreadBps : Int
  source : String
deriving DecidableEq

/-- The defaults: `MAX_CACHE_MS` one hour, both spreads 25 bps, source label
`banxico_fix`. -/
def defaultConfig : Config :=
  { maxCacheMs := 60 * 60 * 1000, buySpreadBps := 25, sellSpreadBps := 25,
    source := "banxico_fix" }

/-- The JSON body of a successful `/fx/usd-mxn/latest` response. -/
structure QuoteResponse where
  asOf : Option String
  usd_mxn_mid : Option ℚ
  buy_spread_bps : Int
  sell_spread_bps : Int
  source : String
  stale : Bool
deriving DecidableEq

/-- Outcome of the `/fx/usd-mxn/latest` route: the JSON quote, or
`res.status(s).json({error: msg})` from the catch block. -/
inductive FxReply where
  | ok (q : QuoteResponse)
  | err (status : Nat) (error : String)
deriving DecidableEq

/-- The success body built from the cache after the refresh decision. -/
def serveQuote (cfg : Config) (now : Int) (c : Cache) : QuoteResponse :=
  { asOf := c.asOf.map toISOStr
    usd_mxn_mid := c.usd_mxn_mid
    buy_spread_bps := cfg.buySpreadBps
    sell_spread_bps := cfg.sellSpreadBps
    source := cfg.source
    stale := isStale c.asOf now }

/-- The `GET /fx/usd-mxn/latest` handler of `src/fx-banco/src/index.js`:
refresh when needed, answer 502 `{error}` when the refresh throws, otherwise
serve the (possibly refreshed) cache with its staleness flag. -/
def getQuote (cfg : Config) (r : Response) (now : Int) (c : Cache) :
    FxReply × Cache :=
  if needsRefresh c now cfg.maxCacheMs then
    match fetchBanxico r c with
    | (.error e, c1) => (.err 502 (errMessage e), c1)
    | (.ok _, c1) => (.ok (serveQuote cfg now c1), c1)
  else (.ok (serveQuote cfg now c), c)

/-- The `GET /fx/usd-mxn/latest` handler of `src/unnamed/part_001`. -/
def getQuoteP1 (cfg : Config) (r : Response) (now : Int) (c : Cache) :
    FxReply × Cache :=
  if needsRefresh c now cfg.maxCacheMs then
    match fetchBanxicoP1 r c with
    | (.error e, c1) => (.err 502 (errMessage e), c1)
    | (.ok _, c1) => (.ok (serveQuote cfg now c1), c1)
  else (.ok (serveQuote cfg now c), c)

/-- The JSON body of the `GET /healthz` response. -/
structure HealthReply where
  ok : Bool
  source : String
  cached : Bool
  stale : Bool
deriving DecidableEq

/-- The `GET /healthz` handler: a pure read of the cache
(`{ok: true, source, cached: !!cache.asOf, stale: isStale(cache.asOf)}`). -/
def healthz (cfg : Config) (now : Int) (c : Cache) : HealthReply × Cache :=
  ({ ok := true, source := cfg.source, cached := c.asOf.isSome,
     stale := isStale c.asOf now }, c)

/-- The 2025-09-01 fixing date of the spec's end-to-end scenario. -/
def sept1 : IsoDate := ⟨2025, 9, 1⟩

/-- Upstream payload `{dato: "18.3452", fecha: "01/09/2025"}` (source-native
day/month/year date). -/
def payloadGood : Payload :=
  ⟨some ⟨[⟨[⟨some ("18.3452"), some ("01/09/2025")⟩]⟩]⟩⟩

/-- The same observation with an already ISO-formatted (slash-free) date. -/
def payloadIso : Payload :=
  ⟨some ⟨[⟨[⟨some ("18.3452"), some ("2025-09-01")⟩]⟩]⟩⟩

/-- Upstream payload whose rate field is the string "NaN". -/
def payloadNaN : Payload :=
  ⟨some ⟨[⟨[⟨some ("NaN"), some ("2025-09-01")⟩]⟩]⟩⟩

/-- Upstream payload carrying the finite but non-positive rate "-1". -/
def payloadNeg : Payload :=
  ⟨some ⟨[⟨[⟨some ("-1"), some ("2025-09-01")⟩]⟩]⟩⟩

/-- A populated cache as left by a successful fetch of `payloadIso`. -/
def popCache : Cache :=
  ⟨some sept1, some (mkRat 183452 10000), false, some payloadIso⟩

/-- Falsiness test of the optional fecha string (JS `!fecha`): absent or
empty. -/
def falsyStr : Option String → Bool
  | none => true
  | some s => s = ""

/-- The cache invariant of the spec: empty, or holding a complete Quote. -/
def CacheInv (c : Cache) : Prop :=
  (c.asOf = none ∧ c.usd_mxn_mid = none) ∨ (c.asOf.isSome ∧ c.usd_mxn_mid.isSome)

/-- The cache after an operation is either untouched or replaced wholesale by
a fully populated record. -/
def WholesaleWrite (c c2 : Cache) : Prop :=
  c2 = c ∨ ∃ dt q j,
    c2 = { asOf := some dt, usd_mxn_mid := some q, stale := false, raw := some j }

example : daysFromCivil ⟨1970, 1, 1⟩ = 0 := by decide
example : epochMs ⟨2025, 9, 1⟩ = 1756749600000 := by decide
example : toISOStr ⟨2025, 9, 1⟩ = "2025-09-01T18:00:00.000Z" := by decide
example : jsNumber (some ("18.3452")) = some (mkRat 183452 10000) := by decide
example : round4 (mkRat 183452 10000) = mkRat 183452 10000 := by decide
example : jsNumber (some ("-1")) = some (mkRat (-1) 1) := by decide
example : jsNumber (some ("NaN")) = none := by decide
example : parseYMD ("2025-09-01") = some ⟨2025, 9, 1⟩ := by decide
example : parseYMD ("01/09/2025") = none := by decide
example : parseBanxicoDate (some ("01/09/2025")) = some ("2025-09-01") := by decide
example :
    fetchResultP1 ⟨200, some ⟨some ⟨[⟨[⟨some ("18.3452"), some ("01/09/2025")⟩]⟩]⟩⟩⟩ =
      .ok ⟨some ⟨2025, 9, 1⟩, some (mkRat 183452 10000), false,
           some ⟨some ⟨[⟨[⟨some ("18.3452"), some ("01/09/2025")⟩]⟩]⟩⟩⟩ := by decide
example :
    fetchResult ⟨200, some ⟨some ⟨[⟨[⟨some ("18.3452"), some ("01/09/2025")⟩]⟩]⟩⟩⟩ =
      .error .invalidTime := by decide
example :
    fetchResult ⟨503, some ⟨some ⟨[⟨[⟨some ("18.3452"), some ("2025-09-01")⟩]⟩]⟩⟩⟩ =
      .error (.upstream 503) := by decide
example :
    fetchResult ⟨200, some ⟨some ⟨[⟨[⟨some ("NaN"), some ("2025-09-01")⟩]⟩]⟩⟩⟩ =
      .error .parseError := by decide

theorem dash_append_ne_empty (x y z : String) :
    x ++ "-" ++ y ++ "-" ++ z ≠ "" := by
  intro h
  have h2 := congrArg String.length h
  simp only [String.length_append] at h2
  have hd : ("-" : String).length = 1 := rfl
  have he : ("" : String).length = 0 := rfl
  omega

theorem parseBanxicoDate_no_slash (s : String)
    (h : s.toList.contains '/' = false) :
    parseBanxicoDate (some s) = some s := by
  simp only [parseBanxicoDate]
  rw [if_pos (Or.inr h)]

theorem parseBanxicoDate_always_some (d : String) :
    ∃ s, parseBanxicoDate (some d) = some s := by
  by_cases hc : d = "" ∨ (d.toList.contains '/') = false
  · exact ⟨d, by simp only [parseBanxicoDate]; rw [if_pos hc]⟩
  · exact ⟨_, by simp only [parseBanxicoDate]; rw [if_neg hc]⟩

theorem falsyStr_parseBanxicoDate (v : Option String) :
    falsyStr (parseBanxicoDate v) = falsyStr v := by
  cases v with
  | none => rfl
  | some d =>
    by_cases hc : d = "" ∨ (d.toList.contains '/') = false
    · simp only [parseBanxicoDate]
      rw [if_pos hc]
    · simp only [parseBanxicoDate]
      rw [if_neg hc]
      push_neg at hc
      simp only [falsyStr]
      rw [decide_eq_false (dash_append_ne_empty _ _ _), decide_eq_false hc.1]

theorem fetchResult_ok_elim (r : Response) (c2 : Cache)
    (h : fetchResult r = .ok c2) :
    ∃ j m f dt, r.body = some j ∧
      jsNumber (extractDato j) = some m ∧
      extractFecha j = some f ∧ f ≠ "" ∧ parseYMD f = some dt ∧
      c2 = { asOf := some dt, usd_mxn_mid := some (round4 m),
             stale := false, raw := some j } := by
  by_cases hok : r.ok = false
  · simp [fetchResult, hok] at h
  · cases hb : r.body with
    | none => simp [fetchResult, hok, hb] at h
    | some j =>
      cases hm : jsNumber (extractDato j) with
      | none => simp [fetchResult, hok, hb, hm] at h
      | some m =>
        cases hf : extractFecha j with
        | none => simp [fetchResult, hok, hb, hm, hf] at h
        | some f =>
          by_cases hfe : f = ""
          · simp [fetchResult, hok, hb, hm, hf, hfe] at h
          · cases hp : parseYMD f with
            | none => simp [fetchResult, hok, hb, hm, hf, hfe, hp] at h
            | some dt =>
              simp only [fetchResult, hok, hb, hm, hf, hfe, hp] at h
              exact ⟨j, m, f, dt, rfl, hm, hf, hfe, hp, by
                simp at h
                exact h.symm⟩

theorem fetchResultP1_ok_elim (r : Response) (c2 : Cache)
    (h : fetchResultP1 r = .ok c2) :
    ∃ j m f dt, r.body = some j ∧
      jsNumber (extractDato j) = some m ∧
      parseBanxicoDate (extractFecha j) = some f ∧ f ≠ "" ∧
      parseYMD f = some dt ∧
      c2 = { asOf := some dt, usd_mxn_mid := some (round4 m),
             stale := false, raw := some j } := by
  by_cases hok : r.ok = false
  · simp [fetchResultP1, hok] at h
  · cases hb : r.body with
    | none => simp [fetchResultP1, hok, hb] at h
    | some j =>
      cases hm : jsNumber (extractDato j) with
      | none => simp [fetchResultP1, hok, hb, hm] at h
      | some m =>
        cases hf : parseBanxicoDate (extractFecha j) with
        | none => simp [fetchResultP1, hok, hb, hm, hf] at h
        | some f =>
          by_cases hfe : f = ""
          · simp [fetchResultP1, hok, hb, hm, hf, hfe] at h
          · cases hp : parseYMD f with
            | none => simp [fetchResultP1, hok, hb, hm, hf, hfe, hp] at h
            | some dt =>
              simp only [fetchResultP1, hok, hb, hm, hf, hfe, hp] at h
              exact ⟨j, m, f, dt, rfl, hm, hf, hfe, hp, by
                simp at h
                exact h.symm⟩

/-- C1: whenever `get_quote` attempts a refresh and the upstream fetch fails
(non-success HTTP status, JSON/field parse failure, or invalid date), the
handler returns the 502 failure to the caller and the cache — every field of
any held Quote included — is exactly what it was before the call, in both
versions of the handler. -/
theorem c1_refresh_failure_preserves_cache (cfg : Config) (r : Response)
    (now : Int) (c : Cache)
    (href : needsRefresh c now cfg.maxCacheMs = true) :
    (∀ e, fetchResult r = .error e →
      getQuote cfg r now c = (.err 502 (errMessage e), c)) ∧
    (∀ e, fetchResultP1 r = .error e →
      getQuoteP1 cfg r now c = (.err 502 (errMessage e), c)) := by
  constructor
  · intro e he
    simp [getQuote, fetchBanxico, href, he]
  · intro e he
    simp [getQuoteP1, fetchBanxicoP1, href, he]

/-- C1 witness: a populated cache, a refresh that is due, and an upstream 503;
the handler fails and the cached Quote survives untouched. -/
theorem c1_witness :
    getQuote defaultConfig ⟨503, none⟩ 1756753200001 popCache =
      (.err 502 (errMessage (.upstream 503)), popCache) :=
  (c1_refresh_failure_preserves_cache defaultConfig ⟨503, none⟩ 1756753200001
    popCache (by decide)).1 (.upstream 503) (by decide)

/-- C2: the refresh condition of `get_quote` holds exactly when no Quote is
held or its age strictly exceeds the refresh interval (`MAX_CACHE_MS`,
default 3,600,000 ms); when it is false the handler answers from the held
Quote, touches nothing, and its result does not depend on the upstream
response; when it is true the outcome is the fetch result. -/
theorem c2_refresh_condition (cfg : Config) (r : Response) (now : Int)
    (c : Cache) :
    (needsRefresh c now cfg.maxCacheMs = true ↔
      c.asOf = none ∨ ∃ dt, c.asOf = some dt ∧ now - epochMs dt > cfg.maxCacheMs) ∧
    defaultConfig.maxCacheMs = 3600000 ∧
    (needsRefresh c now cfg.maxCacheMs = false →
      getQuote cfg r now c = (.ok (serveQuote cfg now c), c) ∧
      (serveQuote cfg now c).usd_mxn_mid = c.usd_mxn_mid ∧
      (serveQuote cfg now c).asOf = c.asOf.map toISOStr) ∧
    (needsRefresh c now cfg.maxCacheMs = true →
      ∀ c2, fetchResult r = .ok c2 →
        getQuote cfg r now c = (.ok (serveQuote cfg now c2), c2)) := by
  refine ⟨?_, by decide, ?_, ?_⟩
  · cases hc : c.asOf with
    | none => simp [needsRefresh, hc]
    | some dt => simp [needsRefresh, hc]
  · intro h
    refine ⟨?_, rfl, rfl⟩
    simp [getQuote, h]
  · intro h c2 hok
    simp [getQuote, fetchBanxico, h, hok]

/-- C2 witness: with a Quote exactly as old as the interval, a failing
upstream response is never consulted and the held Quote is served. -/
theorem c2_witness :
    getQuote defaultConfig ⟨503, none⟩ 1756753200000 popCache =
      (.ok (serveQuote defaultConfig 1756753200000 popCache), popCache) :=
  ((c2_refresh_condition defaultConfig ⟨503, none⟩ 1756753200000
    popCache).2.2.1 (by decide)).1

/-- C5: both freshness comparisons are strict.  A Quote aged exactly the
24-hour staleness threshold is not stale and any strictly larger age is
stale; a Quote aged exactly the refresh interval does not set
`needsRefresh`, and any strictly larger age does. -/
theorem c5_strict_thresholds (dt : IsoDate) (c : Cache) (m ε : Int)
    (hc : c.asOf = some dt) (hε : 0 < ε) :
    isStale c.asOf (epochMs dt + 86400000) = false ∧
    isStale c.asOf (epochMs dt + 86400000 + ε) = true ∧
    needsRefresh c (epochMs dt + m) m = false ∧
    needsRefresh c (epochMs dt + m + ε) m = true := by
  simp only [isStale, needsRefresh, hc]
  refine ⟨?_, ?_, ?_, ?_⟩ <;> simp <;> omega

/-- C5 witness: the populated cache at exactly the thresholds and one
millisecond past them. -/
theorem c5_witness :
    isStale popCache.asOf (epochMs sept1 + 86400000) = false ∧
    isStale popCache.asOf (epochMs sept1 + 86400000 + 1) = true ∧
    needsRefresh popCache (epochMs sept1 + 3600000) 3600000 = false ∧
    needsRefresh popCache (epochMs sept1 + 3600000 + 1) 3600000 = true :=
  c5_strict_thresholds sept1 popCache 3600000 1 (by decide) (by decide)

/-- C6: a non-success upstream status makes the fetch fail with the
`BANXICO_UPSTREAM_<status>` error carrying that status; the HTTP boundary
turns the failed refresh into a 502 (never 500) JSON body with that message,
and with an empty cache the handler fails rather than serving anything. -/
theorem c6_upstream_status_maps_to_502 (cfg : Config) (r : Response)
    (now : Int) (c : Cache) (h : r.ok = false) :
    fetchResult r = .error (.upstream r.status) ∧
    errMessage (.upstream r.status) = "BANXICO_UPSTREAM_" ++ toString r.status ∧
    (needsRefresh c now cfg.maxCacheMs = true →
      getQuote cfg r now c =
        (.err 502 ("BANXICO_UPSTREAM_" ++ toString r.status), c)) ∧
    getQuote cfg r now initialCache =
      (.err 502 ("BANXICO_UPSTREAM_" ++ toString r.status), initialCache) := by
  have hf : fetchResult r = .error (.upstream r.status) := by
    simp [fetchResult, h]
  refine ⟨hf, rfl, ?_, ?_⟩
  · intro href
    simp [getQuote, fetchBanxico, href, hf, errMessage]
  · have href : needsRefresh initialCache now cfg.maxCacheMs = true := by
      simp [needsRefresh, initialCache]
    simp [getQuote, fetchBanxico, href, hf, errMessage]

/-- C6 witness: an upstream 503 against the empty cache produces exactly
`502 {error: "BANXICO_UPSTREAM_503"}`. -/
theorem c6_witness :
    getQuote defaultConfig ⟨503, none⟩ 0 initialCache =
      (.err 502 ("BANXICO_UPSTREAM_503"), initialCache) := by
  have h := (c6_upstream_status_maps_to_502 defaultConfig ⟨503, none⟩ 0
    initialCache (by decide)).2.2.2
  have hs : "BANXICO_UPSTREAM_" ++ toString (503 : Nat) = "BANXICO_UPSTREAM_503" := by
    decide
  rw [hs] at h
  exact h

/-- C9: the health endpoint is a pure read: it performs no fetch (it takes no
upstream response at all) and returns the cache with `asOf`, `usd_mxn_mid`
and `raw` untouched, reporting `cached` as presence of a Quote and `stale`
from the held Quote's age. -/
theorem c9_health_is_pure_read (cfg : Config) (now : Int) (c : Cache) :
    (healthz cfg now c).2.asOf = c.asOf ∧
    (healthz cfg now c).2.usd_mxn_mid = c.usd_mxn_mid ∧
    (healthz cfg now c).2.raw = c.raw ∧
    (healthz cfg now c).1.ok = true ∧
    (healthz cfg now c).1.cached = c.asOf.isSome ∧
    (healthz cfg now c).1.stale = isStale c.asOf now := by
  simp [healthz]

theorem fetchBanxico_snd (r : Response) (c : Cache) :
    (fetchBanxico r c).2 = c ∨
      ∃ c2, fetchResult r = .ok c2 ∧ (fetchBanxico r c).2 = c2 := by
  cases hr : fetchResult r with
  | error e => left; simp [fetchBanxico, hr]
  | ok c2 => right; exact ⟨c2, rfl, by simp [fetchBanxico, hr]⟩

theorem fetchBanxicoP1_snd (r : Response) (c : Cache) :
    (fetchBanxicoP1 r c).2 = c ∨
      ∃ c2, fetchResultP1 r = .ok c2 ∧ (fetchBanxicoP1 r c).2 = c2 := by
  cases hr : fetchResultP1 r with
  | error e => left; simp [fetchBanxicoP1, hr]
  | ok c2 => right; exact ⟨c2, rfl, by simp [fetchBanxicoP1, hr]⟩

theorem getQuote_snd (cfg : Config) (r : Response) (now : Int) (c : Cache) :
    (getQuote cfg r now c).2 = c ∨
      (getQuote cfg r now c).2 = (fetchBanxico r c).2 := by
  by_cases h : needsRefresh c now cfg.maxCacheMs = true
  · right
    cases hr : fetchResult r with
    | error e => simp [getQuote, fetchBanxico, h, hr]
    | ok c2 => simp [getQuote, fetchBanxico, h, hr]
  · left
    simp [getQuote, h]

theorem getQuoteP1_snd (cfg : Config) (r : Response) (now : Int) (c : Cache) :
    (getQuoteP1 cfg r now c).2 = c ∨
      (getQuoteP1 cfg r now c).2 = (fetchBanxicoP1 r c).2 := by
  by_cases h : needsRefresh c now cfg.maxCacheMs = true
  · right
    cases hr : fetchResultP1 r with
    | error e => simp [getQuoteP1, fetchBanxicoP1, h, hr]
    | ok c2 => simp [getQuoteP1, fetchBanxicoP1, h, hr]
  · left
    simp [getQuoteP1, h]

/-- C7: the cache is created empty, and every operation — both fetch versions,
both quote handlers, and the health check — keeps it either empty or holding
a complete Quote, writing only wholesale records (all fields set at once),
never a partial mutation. -/
theorem c7_cache_invariant :
    CacheInv initialCache ∧
    (∀ r c, CacheInv c →
      CacheInv (fetchBanxico r c).2 ∧ WholesaleWrite c (fetchBanxico r c).2) ∧
    (∀ r c, CacheInv c →
      CacheInv (fetchBanxicoP1 r c).2 ∧ WholesaleWrite c (fetchBanxicoP1 r c).2) ∧
    (∀ cfg r now c, CacheInv c →
      CacheInv (getQuote cfg r now c).2 ∧
      WholesaleWrite c (getQuote cfg r now c).2) ∧
    (∀ cfg r now c, CacheInv c →
      CacheInv (getQuoteP1 cfg r now c).2 ∧
      WholesaleWrite c (getQuoteP1 cfg r now c).2) ∧
    (∀ cfg now c, (healthz cfg now c).2 = c) := by
  have hfetch : ∀ r c, CacheInv c →
      CacheInv (fetchBanxico r c).2 ∧ WholesaleWrite c (fetchBanxico r c).2 := by
    intro r c hc
    rcases fetchBanxico_snd r c with h | ⟨c2, hr, h⟩
    · rw [h]
      exact ⟨hc, Or.inl rfl⟩
    · obtain ⟨j, m, f, dt, hb, hm, hf, hfe, hp, hcc⟩ := fetchResult_ok_elim r c2 hr
      rw [h, hcc]
      exact ⟨Or.inr ⟨rfl, rfl⟩, Or.inr ⟨dt, round4 m, j, rfl⟩⟩
  have hfetchP1 : ∀ r c, CacheInv c →
      CacheInv (fetchBanxicoP1 r c).2 ∧ WholesaleWrite c (fetchBanxicoP1 r c).2 := by
    intro r c hc
    rcases fetchBanxicoP1_snd r c with h | ⟨c2, hr, h⟩
    · rw [h]
      exact ⟨hc, Or.inl rfl⟩
    · obtain ⟨j, m, f, dt, hb, hm, hf, hfe, hp, hcc⟩ := fetchResultP1_ok_elim r c2 hr
      rw [h, hcc]
      exact ⟨Or.inr ⟨rfl, rfl⟩, Or.inr ⟨dt, round4 m, j, rfl⟩⟩
  refine ⟨Or.inl ⟨rfl, rfl⟩, hfetch, hfetchP1, ?_, ?_, fun cfg now c => rfl⟩
  · intro cfg r now c hc
    rcases getQuote_snd cfg r now c with h | h
    · rw [h]
      exact ⟨hc, Or.inl rfl⟩
    · rw [h]
      exact hfetch r c hc
  · intro cfg r now c hc
    rcases getQuoteP1_snd cfg r now c with h | h
    · rw [h]
      exact ⟨hc, Or.inl rfl⟩
    · rw [h]
      exact hfetchP1 r c hc

/-- C7 witness: a successful fetch against the empty cache yields a complete,
wholesale-written cache. -/
theorem c7_witness :
    CacheInv (fetchBanxico ⟨200, some payloadIso⟩ initialCache).2 ∧
    WholesaleWrite initialCache (fetchBanxico ⟨200, some payloadIso⟩ initialCache).2 :=
  c7_cache_invariant.2.1 ⟨200, some payloadIso⟩ initialCache (Or.inl ⟨rfl, rfl⟩)

theorem round4_four_digits (q : ℚ) : ∃ n : ℤ, round4 q = (n : ℚ) / 10000 := by
  unfold round4
  split
  · exact ⟨-(Int.fdiv (-20000 * q.num + q.den) (2 * q.den)),
      by rw [Rat.mkRat_eq_div]; norm_num⟩
  · exact ⟨Int.fdiv (20000 * q.num + q.den) (2 * q.den),
      by rw [Rat.mkRat_eq_div]; norm_num⟩

/-- C8: every successful fetch stores `round4` of the extracted upstream rate
— a value with at most four fractional digits — and the quote handler always
returns exactly the stored `usd_mxn_mid`, in both versions. -/
theorem c8_mid_rate_rounded :
    (∀ r j c2, r.body = some j → fetchResult r = .ok c2 →
      ∃ q, jsNumber (extractDato j) = some q ∧
        c2.usd_mxn_mid = some (round4 q) ∧
        ∃ n : ℤ, round4 q = (n : ℚ) / 10000) ∧
    (∀ r j c2, r.body = some j → fetchResultP1 r = .ok c2 →
      ∃ q, jsNumber (extractDato j) = some q ∧
        c2.usd_mxn_mid = some (round4 q) ∧
        ∃ n : ℤ, round4 q = (n : ℚ) / 10000) ∧
    (∀ cfg r now c q2 c2, getQuote cfg r now c = (.ok q2, c2) →
      q2.usd_mxn_mid = c2.usd_mxn_mid) ∧
    (∀ cfg r now c q2 c2, getQuoteP1 cfg r now c = (.ok q2, c2) →
      q2.usd_mxn_mid = c2.usd_mxn_mid) := by
  refine ⟨?_, ?_, ?_, ?_⟩
  · intro r j c2 hb hok
    obtain ⟨j2, m, f, dt, hb2, hm, hf, hfe, hp, hcc⟩ := fetchResult_ok_elim r c2 hok
    have hj : j = j2 := Option.some.inj (hb.symm.trans hb2)
    subst hj
    exact ⟨m, hm, by rw [hcc], round4_four_digits m⟩
  · intro r j c2 hb hok
    obtain ⟨j2, m, f, dt, hb2, hm, hf, hfe, hp, hcc⟩ := fetchResultP1_ok_elim r c2 hok
    have hj : j = j2 := Option.some.inj (hb.symm.trans hb2)
    subst hj
    exact ⟨m, hm, by rw [hcc], round4_four_digits m⟩
  · intro cfg r now c q2 c2 h
    by_cases hnr : needsRefresh c now cfg.maxCacheMs = true
    · cases hr : fetchResult r with
      | error e => simp [getQuote, fetchBanxico, hnr, hr] at h
      | ok cN =>
        simp [getQuote, fetchBanxico, hnr, hr] at h
        rw [← h.1, ← h.2]
        rfl
    · simp [getQuote, hnr] at h
      rw [← h.1, ← h.2]
      rfl
  · intro cfg r now c q2 c2 h
    by_cases hnr : needsRefresh c now cfg.maxCacheMs = true
    · cases hr : fetchResultP1 r with
      | error e => simp [getQuoteP1, fetchBanxicoP1, hnr, hr] at h
      | ok cN =>
        simp [getQuoteP1, fetchBanxicoP1, hnr, hr] at h
        rw [← h.1, ← h.2]
        rfl
    · simp [getQuoteP1, hnr] at h
      rw [← h.1, ← h.2]
      rfl

/-- C8 witness: the concrete ISO-dated fetch stores the rounded rate
18.3452. -/
theorem c8_witness :
    ∃ q, jsNumber (extractDato payloadIso) = some q ∧
      popCache.usd_mxn_mid = some (round4 q) ∧
      ∃ n : ℤ, round4 q = (n : ℚ) / 10000 :=
  c8_mid_rate_rounded.1 ⟨200, some payloadIso⟩ payloadIso popCache rfl (by decide)

/-- The spec's end-to-end upstream response: 200 with
`{dato: "18.3452", fecha: "01/09/2025"}`. -/
def respGood : Response := ⟨200, some payloadGood⟩

/-- Upstream 200 response whose rate field is "NaN". -/
def respNaN : Response := ⟨200, some payloadNaN⟩

/-- Upstream 200 response with the finite, non-positive rate "-1". -/
def respNeg : Response := ⟨200, some payloadNeg⟩

/-- C3: for the upstream data point `{dato: "18.3452", fecha: "01/09/2025"}`
(day/month/year), a successful `get_quote` returns `mid_rate` 18.3452 and
`asOf` "2025-09-01T18:00:00.000Z", with `stale: false` whenever the current
time is within 24 hours of that instant (epoch 1,756,749,600,000 ms). -/
theorem c3_end_to_end (now : Int) (h : now - epochMs sept1 ≤ 86400000) :
    (getQuoteP1 defaultConfig respGood now initialCache).1 =
      .ok { asOf := some ("2025-09-01T18:00:00.000Z"),
            usd_mxn_mid := some (mkRat 183452 10000),
            buy_spread_bps := 25, sell_spread_bps := 25,
            source := "banxico_fix", stale := false } ∧
    mkRat 183452 10000 = (183452 : ℚ) / 10000 ∧
    epochMs sept1 = 1756749600000 := by
  have hf : fetchResultP1 respGood =
      .ok ⟨some sept1, some (mkRat 183452 10000), false, some payloadGood⟩ := by
    decide
  have hnr : ∀ m : Int, needsRefresh initialCache now m = true := by
    intro m
    simp [needsRefresh, initialCache]
  have hiso : toISOStr sept1 = "2025-09-01T18:00:00.000Z" := by decide
  have hstale : isStale (some sept1) now = false := by
    simp [isStale]
    omega
  refine ⟨?_, by rw [Rat.mkRat_eq_div]; norm_num, by decide⟩
  simp [getQuoteP1, fetchBanxicoP1, hnr, hf, serveQuote, hiso, hstale,
    defaultConfig]

/-- C3 witness: at the fixing instant itself the response is exactly the
spec's expectation. -/
theorem c3_witness :
    (getQuoteP1 defaultConfig respGood 1756749600000 initialCache).1 =
      .ok { asOf := some ("2025-09-01T18:00:00.000Z"),
            usd_mxn_mid := some (mkRat 183452 10000),
            buy_spread_bps := 25, sell_spread_bps := 25,
            source := "banxico_fix", stale := false } :=
  (c3_end_to_end 1756749600000 (by decide)).1

/-- C4 counterexample: with dato "-1" — a finite but non-positive rate — and
a valid date, the claim as stated demands `UpstreamParseError`; the code
instead raises no error at all and produces a cached Quote carrying the
non-positive rate −1. -/
theorem c4_counterexample :
    jsNumber (extractDato payloadNeg) = some (mkRat (-1) 1) ∧
    (mkRat (-1) 1).num < 0 ∧
    fetchResult respNeg ≠ .error .parseError ∧
    fetchResult respNeg =
      .ok ⟨some sept1, some (mkRat (-1) 1), false, some payloadNeg⟩ := by
  exact ⟨by decide, by decide, by decide, by decide⟩

/-- C4 amended: `fetch_quote` fails with `BANXICO_PARSE_ERROR` — and no other
error — exactly when the converted rate is non-finite or the fecha field is
absent or empty; positivity of the rate is not checked (a finite non-positive
rate still yields a Quote), and a present but unparseable date raises the
distinct invalid-time error instead.  Both versions agree on this
condition. -/
theorem c4_amended (r : Response) (j : Payload) (hok : r.ok = true)
    (hb : r.body = some j) :
    (fetchResult r = .error .parseError ↔
      jsNumber (extractDato j) = none ∨ falsyStr (extractFecha j) = true) ∧
    (fetchResultP1 r = .error .parseError ↔
      jsNumber (extractDato j) = none ∨ falsyStr (extractFecha j) = true) := by
  have hok2 : ¬ r.ok = false := by simp [hok]
  constructor
  · cases hm : jsNumber (extractDato j) with
    | none => simp [fetchResult, hok2, hb, hm]
    | some m =>
      cases hf : extractFecha j with
      | none => simp [fetchResult, hok2, hb, hm, hf, falsyStr]
      | some f =>
        by_cases hfe : f = ""
        · simp [fetchResult, hok2, hb, hm, hf, hfe, falsyStr]
        · cases hp : parseYMD f with
          | none => simp [fetchResult, hok2, hb, hm, hf, hfe, hp, falsyStr]
          | some dt => simp [fetchResult, hok2, hb, hm, hf, hfe, hp, falsyStr]
  · cases hm : jsNumber (extractDato j) with
    | none => simp [fetchResultP1, hok2, hb, hm]
    | some m =>
      cases hfo : extractFecha j with
      | none =>
        have hpn : parseBanxicoDate none = none := rfl
        simp [fetchResultP1, hok2, hb, hm, hfo, hpn, falsyStr]
      | some f =>
        obtain ⟨f2, hf2⟩ := parseBanxicoDate_always_some f
        have hfalsy := falsyStr_parseBanxicoDate (some f)
        rw [hf2] at hfalsy
        by_cases hfe : f2 = ""
        · have hf0 : f = "" := by
            rw [hfe] at hfalsy
            simp [falsyStr] at hfalsy
            exact hfalsy
          subst hf0
          subst hfe
          simp [fetchResultP1, hok2, hb, hm, hfo, hf2, falsyStr]
        · have hfne : ¬ f = "" := by
            intro hh
            rw [hh] at hfalsy
            simp [falsyStr] at hfalsy
            exact hfe hfalsy
          cases hp : parseYMD f2 with
          | none =>
            simp [fetchResultP1, hok2, hb, hm, hfo, hf2, hfe, hp, falsyStr, hfne]
          | some dt =>
            simp [fetchResultP1, hok2, hb, hm, hfo, hf2, hfe, hp, falsyStr, hfne]

/-- C4 witness: the spec's own test vector — dato "NaN" — is a parse error in
both versions. -/
theorem c4_witness :
    fetchResult respNaN = .error .parseError ∧
    fetchResultP1 respNaN = .error .parseError := by
  have h := c4_amended respNaN payloadNaN (by decide) rfl
  exact ⟨h.1.mpr (Or.inl (by decide)), h.2.mpr (Or.inl (by decide))⟩

/-- C10: `parseBanxicoDate` is the identity on every slash-free string, so
the two `fetchBanxico` versions return the same Quote on success, the same
error on failure, and the same cache, for every upstream response whose
fecha contains no slash; the versions can differ only on slash-separated
day/month/year dates. -/
theorem c10_versions_agree_without_slash :
    (∀ s : String, s.toList.contains '/' = false →
      parseBanxicoDate (some s) = some s) ∧
    (∀ r c, (∀ j, r.body = some j → ∀ s, extractFecha j = some s →
        s.toList.contains '/' = false) →
      fetchBanxico r c = fetchBanxicoP1 r c) := by
  refine ⟨parseBanxicoDate_no_slash, ?_⟩
  intro r c hs
  have hcore : fetchResult r = fetchResultP1 r := by
    by_cases hok : r.ok = false
    · simp [fetchResult, fetchResultP1, hok]
    · cases hb : r.body with
      | none => simp [fetchResult, fetchResultP1, hok, hb]
      | some j =>
        have hfe : parseBanxicoDate (extractFecha j) = extractFecha j := by
          cases hf : extractFecha j with
          | none => rfl
          | some s => exact parseBanxicoDate_no_slash s (hs j hb s hf)
        simp [fetchResult, fetchResultP1, hok, hb, hfe]
  simp [fetchBanxico, fetchBanxicoP1, hcore]

/-- C10 witness: on the slash-free ISO fecha the two versions coincide
exactly. -/
theorem c10_witness :
    fetchBanxico ⟨200, some payloadIso⟩ initialCache =
      fetchBanxicoP1 ⟨200, some payloadIso⟩ initialCache := by
  apply c10_versions_agree_without_slash.2
  intro j hb s hf
  have hj : j = payloadIso := (Option.some.inj hb).symm
  subst hj
  have h2 : extractFecha payloadIso = some ("2025-09-01") := by decide
  rw [h2] at hf
  have hs2 : s = "2025-09-01" := (Option.some.inj hf).symm
  subst hs2
  decide
